import Mathlib

/-!
Shallow embedding of TheYkk/star (src/main.go): a GitHub-webhook-to-Telegram
notification relay. The program is a single HTTP server with

  * a `/webhook` POST handler: parses the request with
    `gopkg.in/go-playground/webhooks.v5/github` scoped to the `watch` event,
    sends a Telegram message on a decoded `WatchPayload`, and always writes a
    trailing acknowledgment body;
  * a `tracing` middleware assigning / propagating `X-Request-Id`;
  * a `logging` middleware computing latency (ceiling milliseconds) and the
    client address with `X-Real-Ip` / `X-Forwarded-For` / RemoteAddr precedence;
  * startup logic in `main`: fatal exit when `GITHUB_SECRET` is empty,
    error-level (non-fatal) logs when `TELEGRAM_TOKEN` / `TELEGRAM_CHAT` are
    empty, panic when the Telegram bot API client cannot be initialised.

The HMAC-SHA1 hex digest and the JSON decoder of the third-party webhook
library are abstracted as explicit function parameters (`mac`, `unmarshal`);
every theorem about the handler quantifies over them, and concrete stand-ins
are used for closed witnesses and counterexamples.

The library's signature check slices `signature[5:]` after only testing
`len(signature) == 0`, so an `X-Hub-Signature` header of length 1-4 makes the
Go runtime panic (slice out of bounds); `net/http` recovers and closes the
connection without writing any response. This crash is modelled explicitly:
parsing can yield `ParseOutcome.crashed` and the handler then produces no
`HandlerResult` at all (`none`).
-/

namespace Star

/-- Body text written at the end of every `/webhook` request
(`fmt.Fprint(w, "Event received. Have a nice day")`, src/main.go line 122). -/
def genericAck : String := "Event received. Have a nice day"

/-- The fields of the library's `github.WatchPayload` that the program reads:
`Repository.Name`, `Repository.StargazersCount` (an `int64`), `Sender.HTMLURL`. -/
structure WatchPayload where
  repoName : String
  stargazersCount : Int
  senderHTMLURL : String
deriving DecidableEq, Repr

/-- The Go zero value of `github.WatchPayload`, as produced when
`json.Unmarshal` fails without filling any field. -/
def watchZero : WatchPayload := ⟨"", 0, ""⟩

/-- The error values `hook.Parse` can return at this call site
(`webhooks.v5/github`: method check, event header checks, payload read,
signature check, JSON unmarshal). -/
inductive ParseError
  | invalidHTTPMethod
  | missingEventHeader
  | eventNotFound
  | parsingPayload
  | missingSignature
  | hmacFailed
  | jsonError
deriving DecidableEq, Repr

/-- The parts of an inbound `/webhook` request the handler reads. Absent
headers read as `""` (Go `Header.Get`). -/
structure HookRequest where
  method : String
  /-- Value of the `X-GitHub-Event` header. -/
  eventHeader : String
  /-- Value of the `X-Hub-Signature` header (`""` when absent). -/
  sigHeader : String
  /-- Request body. -/
  body : String
deriving DecidableEq, Repr

/-- Outcome of the library's `Parse`: either it returns normally — a pair of
the `payload` interface value and the `err` value — or the Go runtime panics
inside it and the handler crashes without ever returning. -/
inductive ParseOutcome
  | result (payload : Option WatchPayload) (err : Option ParseError)
  | crashed
deriving DecidableEq, Repr

/-- Embedding of `webhook.Parse(r, webhook.WatchEvent)` from
`webhooks.v5/github` at the call site in src/main.go line 96: method must be
POST; the `X-GitHub-Event` header must be present and must be one of the
subscribed events (here only `watch`, checked BEFORE the signature); the body
must be non-empty; with a non-empty secret the `X-Hub-Signature` header must be
present — and since the library then evaluates `signature[5:]` guarded only by
the emptiness check, a header of length 1-4 panics the Go runtime (slice out
of bounds), modelled as `.crashed` — and its hex digest (after dropping the
5-character `sha1=` prefix) must equal the HMAC-SHA1 of the body under the
secret; finally the body is unmarshalled into a `WatchPayload`, which is
returned as the payload value even when unmarshalling fails (then as the zero
value, together with the error).

`mac secret body` abstracts the hex HMAC-SHA1 digest; `unmarshal` abstracts
`json.Unmarshal` into `WatchPayload` (`none` = unmarshal error, in which case
Go returns the zero value payload alongside the error). -/
def hookParse (mac : String → String → String)
    (unmarshal : String → Option WatchPayload) (secret : String)
    (r : HookRequest) : ParseOutcome :=
  if r.method ≠ "POST" then .result none (some .invalidHTTPMethod)
  else if r.eventHeader = "" then .result none (some .missingEventHeader)
  else if r.eventHeader ≠ "watch" then .result none (some .eventNotFound)
  else if r.body.length = 0 then .result none (some .parsingPayload)
  else if 0 < secret.length ∧ r.sigHeader.length = 0 then
    .result none (some .missingSignature)
  else if 0 < secret.length ∧ r.sigHeader.length < 5 then .crashed
  else if 0 < secret.length ∧ (r.sigHeader.drop 5) ≠ mac secret r.body then
    .result none (some .hmacFailed)
  else
    match unmarshal r.body with
    | some pl => .result (some pl) none
    | none => .result (some watchZero) (some .jsonError)

/-- The message string built by `fmt.Sprintf` in src/main.go lines 107-109
(`%v` on an `int64` prints its decimal representation). -/
def formatStarMessage (pl : WatchPayload) : String :=
  "New Github star for *" ++ pl.repoName ++ "* repo!. \n" ++
  "The *" ++ pl.repoName ++ "* repo now has *" ++ toString pl.stargazersCount ++
  "* stars! 🎉. \n" ++ "Your new fan is " ++ pl.senderHTMLURL

/-- The `tgbotapi.NewMessage` value sent by the handler
(`msg.ParseMode = "markdown"`). -/
structure OutboundMessage where
  chatID : Int
  text : String
  parseMode : String
deriving DecidableEq, Repr

/-- Observable outcome of one `/webhook` handler invocation: HTTP status,
response body (concatenation of all `fmt.Fprint(w, ...)` writes), the
error-level log entries (each carrying the logged `X-GitHub-Event` header
value), and the outbound Telegram send attempts. -/
structure HandlerResult where
  status : Nat
  body : String
  errorLogs : List String
  sent : List OutboundMessage
deriving DecidableEq, Repr

/-- Embedding of the `/webhook` handler (src/main.go lines 94-123). When
`hook.Parse` panics (short signature header) the handler crashes and no
response is written at all: the result is `none`. Otherwise the handler
returns normally: when `err == webhook.ErrEventNotFound` it logs one
error-level entry carrying the raw `X-GitHub-Event` header (no other error is
ever logged at error level; a failed `bot.Send` is logged with `log.Printf`,
which is info level). When the payload value is a `WatchPayload` (which
includes the zero value returned together with a JSON unmarshal error) it
formats and sends one Telegram message and writes `"OK"`; in every returning
case it then writes the generic acknowledgment. The handler never calls
`WriteHeader`, so `net/http` replies with status 200 on the first body write;
a `bot.Send` failure only adds an info-level log and changes nothing
observable here. -/
def webhookHandler (mac : String → String → String)
    (unmarshal : String → Option WatchPayload) (secret : String)
    (chatID : Int) (r : HookRequest) : Option HandlerResult :=
  match hookParse mac unmarshal secret r with
  | .crashed => none
  | .result payload err =>
    let errorLogs :=
      if err = some ParseError.eventNotFound then [r.eventHeader] else []
    match payload with
    | some pl =>
        some { status := 200
               body := "OK" ++ genericAck
               errorLogs := errorLogs
               sent := [⟨chatID, formatStarMessage pl, "markdown"⟩] }
    | none =>
        some { status := 200
               body := genericAck
               errorLogs := errorLogs
               sent := [] }

/-- Outcome of `main`'s startup sequence (src/main.go lines 57-82):
`log.Fatal` exits the process, `log.Panicf` panics, otherwise the server is
set up with the parsed Telegram chat id and the error-level logs emitted so
far. -/
inductive StartupResult
  | fatalExit (msg : String)
  | panicked (msg : String)
  | serving (chatID : Int) (startupErrorLogs : List String)
deriving DecidableEq, Repr

/-- Largest value of a Go `int64`. -/
def int64Max : Int := 9223372036854775807

/-- Smallest value of a Go `int64`. -/
def int64Min : Int := -9223372036854775808

/-- Embedding of `strconv.ParseInt(s, 10, 64)` with the error ignored
(src/main.go line 75): an optional sign followed by decimal digits yields the
value clamped to the `int64` range (Go returns the clamped value together
with a range error, and the error is discarded); any syntax error yields the
zero value `0`. -/
def goParseInt64 (s : String) : Int :=
  let parsed : Option Int :=
    if s = "" then none
    else if s.front = '+' then ((s.drop 1).toNat?).map (fun n => (n : Int))
    else if s.front = '-' then ((s.drop 1).toNat?).map (fun n => -(n : Int))
    else (s.toNat?).map (fun n => (n : Int))
  match parsed with
  | none => 0
  | some v => if v > int64Max then int64Max else if v < int64Min then int64Min else v

/-- Embedding of `main`'s startup sequence (src/main.go lines 57-82): fatal
exit when `GITHUB_SECRET` is empty; error-level (non-fatal) logs when
`TELEGRAM_TOKEN` or `TELEGRAM_CHAT` is empty; the chat id parsed with the
error ignored; then `tgbotapi.NewBotAPI` — an external network call whose
success is the explicit parameter `botInitOk` — panics the process on failure.
-/
def startup (githubSecret telegramToken telegramChat : String)
    (botInitOk : Bool) : StartupResult :=
  if githubSecret = "" then .fatalExit "Github webhook secret not set"
  else
    let tokenLogs :=
      if telegramToken = "" then ["Telegram token not set"] else []
    let chatLogs :=
      if telegramChat = "" then ["Telegram Chat ID not set"] else []
    let chatID := goParseInt64 telegramChat
    if botInitOk then .serving chatID (tokenLogs ++ chatLogs)
    else .panicked "Bot cant connect"

/-- The correlation id chosen by the `tracing` middleware (src/main.go lines
195-207): the inbound `X-Request-Id` header when non-empty, otherwise the
decimal representation of `time.Now().UnixNano()` (an `int64`). -/
def tracingRequestID (xRequestId : String) (nowNano : Int) : String :=
  if xRequestId = "" then toString nowNano else xRequestId

/-- What `tracing` makes observable: the `X-Request-Id` response header it
sets and the request id it stores in the request context for downstream
handlers and the logger. -/
structure TracingOut where
  responseRequestId : String
  ctxRequestId : String
deriving DecidableEq, Repr

/-- Embedding of the `tracing` middleware: one id is computed and used both
for the response header and the context value. -/
def tracing (xRequestId : String) (nowNano : Int) : TracingOut :=
  let rid := tracingRequestID xRequestId nowNano
  ⟨rid, rid⟩

/-- The latency recorded by the `logging` middleware (src/main.go line 168):
`int(math.Ceil(float64(stop.Nanoseconds()) / 1000000.0))`, i.e. the ceiling of
elapsed nanoseconds over one million. (For every elapsed time below 2^52 ns
the float64 computation is exact enough that its ceiling equals the rational
ceiling, which is this natural-number ceiling division.) -/
def latencyMillis (elapsedNanos : Nat) : Nat :=
  (elapsedNanos + 999999) / 1000000

/-- The client address recorded by the `logging` middleware (src/main.go lines
171-177): `X-Real-Ip` if non-empty, else `X-Forwarded-For` if non-empty, else
`r.RemoteAddr`. -/
def clientIP (xRealIp xForwardedFor remoteAddr : String) : String :=
  if xRealIp ≠ "" then xRealIp
  else if xForwardedFor ≠ "" then xForwardedFor
  else remoteAddr

/-- Substring occurrence: `pat` occurs inside `s`. -/
def containsStr (s pat : String) : Prop := ∃ a b, s = a ++ (pat ++ b)

/-! ### Concrete stand-ins used by closed witnesses and counterexamples -/

/-- A concrete stand-in for the hex HMAC-SHA1 digest function (any function
of this type works for the theorems, which quantify over it). -/
def macConst (_secret _body : String) : String :=
  "0123456789abcdef0123456789abcdef01234567"

/-- The example JSON body from the spec:
repository name `star`, 42 stargazers, sender `https://github.com/alice`. -/
def starBody : String :=
  "\x7b\"repository\": \x7b\"name\": \"star\", \"stargazers_count\": 42\x7d, " ++
  "\"sender\": \x7b\"html_url\": \"https://github.com/alice\"\x7d\x7d"

/-- The payload `json.Unmarshal` produces from `starBody`. -/
def starPayload : WatchPayload := ⟨"star", 42, "https://github.com/alice"⟩

/-- A concrete stand-in for `json.Unmarshal` that decodes exactly
`starBody`. -/
def unmarshalStar (s : String) : Option WatchPayload :=
  if s = starBody then some starPayload else none

/-- A valid watch request: correct method, event header, signature
(`sha1=` followed by the digest of the body under the secret). -/
def starReq : HookRequest :=
  ⟨"POST", "watch", "sha1=" ++ macConst "s3cret" starBody, starBody⟩

/-- A watch request whose signature digest does not match. -/
def badSigReq : HookRequest := ⟨"POST", "watch", "sha1=ffff", starBody⟩

/-- A request with a valid signature but event type `push`. -/
def pushReq : HookRequest :=
  ⟨"POST", "push", "sha1=" ++ macConst "s3cret" starBody, starBody⟩

/-- A watch request whose `X-Hub-Signature` header has fewer than 5
characters: the library's `signature[5:]` slice panics on it. -/
def shortSigReq : HookRequest := ⟨"POST", "watch", "abc", starBody⟩

/-! ### Helper lemmas -/

/-- `Nat.toDigitsCore` never shortens its accumulator. -/
theorem toDigitsCore_len_le (b : Nat) :
    ∀ (fuel n : Nat) (ds : List Char),
      ds.length ≤ (Nat.toDigitsCore b fuel n ds).length := by
  intro fuel
  induction fuel with
  | zero => intro n ds; simp [Nat.toDigitsCore]
  | succ f ih =>
    intro n ds
    simp only [Nat.toDigitsCore]
    split
    · simp
    · exact le_trans (by simp) (ih (n / b) (Nat.digitChar (n % b) :: ds))

/-- The digit list of a natural number is never empty. -/
theorem toDigits_ne_nil (b n : Nat) : Nat.toDigits b n ≠ [] := by
  unfold Nat.toDigits
  simp only [Nat.toDigitsCore]
  split
  · simp
  · intro h
    have hlen := toDigitsCore_len_le b n (n / b) [Nat.digitChar (n % b)]
    rw [h] at hlen
    simp at hlen

/-- The decimal representation of a natural number is never the empty
string. -/
theorem natRepr_ne_empty (n : Nat) : Nat.repr n ≠ "" := by
  intro h
  have hd := congrArg String.data h
  simp only [Nat.repr, List.asString] at hd
  exact toDigits_ne_nil 10 n hd

/-- The decimal representation of an `Int` (Go `strconv.FormatInt(i, 10)`)
is never the empty string. -/
theorem intToString_ne_empty (i : Int) : toString i ≠ "" := by
  cases i with
  | ofNat m => exact natRepr_ne_empty m
  | negSucc m =>
    intro h
    have hd : ('-' :: (toString (Nat.succ m)).data) = [] := congrArg String.data h
    simp at hd

/-- Closed form of the notification text for the spec's example payload. -/
theorem formatStarMessage_star (url : String) :
    formatStarMessage ⟨"star", 42, url⟩ =
      "New Github star for *star* repo!. \nThe *star* repo now has *42* stars! 🎉. \nYour new fan is "
        ++ url := by
  unfold formatStarMessage
  simp only [← String.append_assoc]
  congr 1

/-- The notification text for the example payload contains `star`. -/
theorem formatStar_contains_star (url : String) :
    containsStr (formatStarMessage ⟨"star", 42, url⟩) "star" := by
  refine ⟨"New Github ",
    " for *star* repo!. \nThe *star* repo now has *42* stars! 🎉. \nYour new fan is " ++ url, ?_⟩
  rw [formatStarMessage_star]
  conv_rhs => rw [← String.append_assoc, ← String.append_assoc]
  rfl

/-- The notification text for the example payload contains `42`. -/
theorem formatStar_contains_42 (url : String) :
    containsStr (formatStarMessage ⟨"star", 42, url⟩) "42" := by
  refine ⟨"New Github star for *star* repo!. \nThe *star* repo now has *",
    "* stars! 🎉. \nYour new fan is " ++ url, ?_⟩
  rw [formatStarMessage_star]
  conv_rhs => rw [← String.append_assoc, ← String.append_assoc]
  rfl

/-- The notification text for the example payload contains the sender URL. -/
theorem formatStar_contains_url (url : String) :
    containsStr (formatStarMessage ⟨"star", 42, url⟩) url := by
  refine ⟨"New Github star for *star* repo!. \nThe *star* repo now has *42* stars! 🎉. \nYour new fan is ",
    "", ?_⟩
  rw [formatStarMessage_star, String.append_empty]

/-! ### Claim theorems -/

/-- C1 (counterexample): on the valid watch request from the spec's example
(`starReq`: valid signature, `X-GitHub-Event: watch`, repository `star` with
42 stargazers, sender `https://github.com/alice`), exactly one outbound
message is attempted, but the response body is NOT exactly `"OK"`: the handler
falls through after the watch branch and appends the generic acknowledgment,
so the body is `"OKEvent received. Have a nice day"`. -/
theorem C1_counterexample :
    webhookHandler macConst unmarshalStar "s3cret" 99 starReq =
      some { status := 200, body := "OK" ++ genericAck, errorLogs := [],
             sent := [⟨99, formatStarMessage starPayload, "markdown"⟩] } ∧
    "OK" ++ genericAck ≠ "OK" := by
  decide

/-- C1 (amended): for every POST `/webhook` request with a valid signature
(its `X-Hub-Signature` header at least 5 characters, as every real
`sha1=`-prefixed digest is, and matching the body's digest),
`X-GitHub-Event: watch`, and a payload decoding to repository `star` with 42
stargazers and a sender URL, the handler completes with status 200 and a body
that is `"OK"` immediately followed by the generic acknowledgment (not `"OK"`
alone), and exactly one outbound chat message is sent whose text contains
`star`, `42`, and the sender URL. -/
theorem C1_watch_star_notification
    (mac : String → String → String) (unmarshal : String → Option WatchPayload)
    (secret : String) (chatID : Int) (r : HookRequest) (url : String)
    (hm : r.method = "POST") (he : r.eventHeader = "watch")
    (hb : r.body.length ≠ 0) (hs5 : 5 ≤ r.sigHeader.length)
    (hsig : r.sigHeader.drop 5 = mac secret r.body)
    (hu : unmarshal r.body = some ⟨"star", 42, url⟩) :
    ∃ res, webhookHandler mac unmarshal secret chatID r = some res ∧
      res.status = 200 ∧ res.body = "OK" ++ genericAck ∧ res.sent.length = 1 ∧
      ∀ m ∈ res.sent,
        containsStr m.text "star" ∧ containsStr m.text "42" ∧ containsStr m.text url := by
  have hp : hookParse mac unmarshal secret r =
      ParseOutcome.result (some ⟨"star", 42, url⟩) none := by
    unfold hookParse
    rw [if_neg (by simp [hm]), if_neg (by simp [he]), if_neg (by simp [he]),
        if_neg hb, if_neg (by rintro ⟨-, h0⟩; omega),
        if_neg (by rintro ⟨-, h5⟩; omega), if_neg (by simp [hsig]), hu]
  refine ⟨⟨200, "OK" ++ genericAck, [],
    [⟨chatID, formatStarMessage ⟨"star", 42, url⟩, "markdown"⟩]⟩,
    by simp [webhookHandler, hp], rfl, rfl, rfl, ?_⟩
  intro m hm2
  simp only [List.mem_singleton] at hm2
  subst hm2
  exact ⟨formatStar_contains_star url, formatStar_contains_42 url,
    formatStar_contains_url url⟩

/-- C1 (witness): the amended statement instantiated at the concrete valid
watch request `starReq`. -/
theorem C1_watch_star_notification_witness :
    ∃ res, webhookHandler macConst unmarshalStar "s3cret" 99 starReq = some res ∧
      res.status = 200 ∧ res.body = "OK" ++ genericAck ∧ res.sent.length = 1 ∧
      ∀ m ∈ res.sent,
        containsStr m.text "star" ∧ containsStr m.text "42" ∧
        containsStr m.text "https://github.com/alice" :=
  C1_watch_star_notification macConst unmarshalStar "s3cret" 99 starReq
    "https://github.com/alice" rfl rfl (by decide) (by decide) (by decide) (by decide)

/-- C2 (counterexample): on the bad-signature watch request `badSigReq`
(method POST, event `watch`, signature digest `ffff` which does not match the
HMAC of the body), the response is 200 with the generic body and no outbound
message — but the error-level log list is empty, not of length one: the
handler only logs when `hook.Parse` returns `ErrEventNotFound`, and a
signature mismatch returns `ErrHMACVerificationFailed` instead. -/
theorem C2_counterexample :
    webhookHandler macConst unmarshalStar "s3cret" 99 badSigReq =
      some { status := 200, body := genericAck, errorLogs := [], sent := [] } ∧
    ([] : List String).length ≠ 1 := by
  decide

/-- C2 (amended): for every POST `/webhook` request with event type `watch`
whose signature is invalid with an `X-Hub-Signature` header of at least 5
characters (non-empty secret, hex digest mismatch; every real
`sha1=`-prefixed digest has 45), the response has status 200 with the generic
acknowledgment body, zero outbound chat messages are sent, and zero
error-level log entries are emitted (the handler logs at error level only for
unrecognized event types, not for signature mismatches). A header of 1-4
characters instead panics the library's `signature[5:]` slice and the request
gets no response at all. -/
theorem C2_invalid_signature_silent
    (mac : String → String → String) (unmarshal : String → Option WatchPayload)
    (secret : String) (chatID : Int) (r : HookRequest)
    (hm : r.method = "POST") (he : r.eventHeader = "watch")
    (hb : r.body.length ≠ 0) (hsec : secret.length ≠ 0)
    (hs5 : 5 ≤ r.sigHeader.length)
    (hsig : r.sigHeader.drop 5 ≠ mac secret r.body) :
    ∃ res, webhookHandler mac unmarshal secret chatID r = some res ∧
      res.status = 200 ∧ res.body = genericAck ∧ res.sent = [] ∧ res.errorLogs = [] := by
  have hp : hookParse mac unmarshal secret r =
      ParseOutcome.result none (some ParseError.hmacFailed) := by
    unfold hookParse
    rw [if_neg (by simp [hm]), if_neg (by simp [he]), if_neg (by simp [he]),
        if_neg hb, if_neg (by rintro ⟨-, h0⟩; omega),
        if_neg (by rintro ⟨-, h5⟩; omega),
        if_pos ⟨Nat.pos_of_ne_zero hsec, hsig⟩]
  exact ⟨⟨200, genericAck, [], []⟩, by simp [webhookHandler, hp], rfl, rfl, rfl, rfl⟩

/-- C2 (witness): the amended statement instantiated at `badSigReq` (whose
signature header `sha1=ffff` has 9 characters). -/
theorem C2_invalid_signature_silent_witness :
    ∃ res, webhookHandler macConst unmarshalStar "s3cret" 99 badSigReq = some res ∧
      res.status = 200 ∧ res.body = genericAck ∧ res.sent = [] ∧ res.errorLogs = [] :=
  C2_invalid_signature_silent macConst unmarshalStar "s3cret" 99 badSigReq
    rfl rfl (by decide) (by decide) (by decide) (by decide)

/-- C3 (counterexample): on the `push` request `pushReq` (valid signature,
event type `push`), the error-level log list is `["push"]` — not empty:
`hook.Parse` rejects an unsubscribed event type with `ErrEventNotFound`
(before even checking the signature) and the handler logs exactly that case
at error level with the raw event header. -/
theorem C3_counterexample :
    webhookHandler macConst unmarshalStar "s3cret" 99 pushReq =
      some { status := 200, body := genericAck, errorLogs := ["push"], sent := [] } ∧
    (["push"] : List String) ≠ [] := by
  decide

/-- C3 (amended): for every POST `/webhook` request whose event type is
neither `watch` nor empty (e.g. `push`), regardless of its signature, the
response has status 200 with the generic acknowledgment body, zero outbound
chat messages are sent, and exactly one error-level log entry is emitted
carrying the raw `X-GitHub-Event` header value. -/
theorem C3_unrecognized_event_logged
    (mac : String → String → String) (unmarshal : String → Option WatchPayload)
    (secret : String) (chatID : Int) (r : HookRequest)
    (hm : r.method = "POST") (he1 : r.eventHeader ≠ "")
    (he2 : r.eventHeader ≠ "watch") :
    ∃ res, webhookHandler mac unmarshal secret chatID r = some res ∧
      res.status = 200 ∧ res.body = genericAck ∧ res.sent = [] ∧
      res.errorLogs = [r.eventHeader] := by
  have hp : hookParse mac unmarshal secret r =
      ParseOutcome.result none (some ParseError.eventNotFound) := by
    unfold hookParse
    rw [if_neg (by simp [hm]), if_neg he1, if_pos he2]
  exact ⟨⟨200, genericAck, [r.eventHeader], []⟩,
    by simp [webhookHandler, hp], rfl, rfl, rfl, rfl⟩

/-- C3 (witness): the amended statement instantiated at `pushReq`. -/
theorem C3_unrecognized_event_logged_witness :
    ∃ res, webhookHandler macConst unmarshalStar "s3cret" 99 pushReq = some res ∧
      res.status = 200 ∧ res.body = genericAck ∧ res.sent = [] ∧
      res.errorLogs = [pushReq.eventHeader] :=
  C3_unrecognized_event_logged macConst unmarshalStar "s3cret" 99 pushReq
    rfl (by decide) (by decide)

/-- C4: when `GITHUB_SECRET` is non-empty, an empty `TELEGRAM_TOKEN` or
`TELEGRAM_CHAT` never causes a fatal exit: startup can only panic when the
external Telegram bot initialisation fails (which is independent of the
configuration checks), and when it succeeds the process reaches the serving
state with the corresponding error-level log entries emitted and the chat id
parsed (defaulting to zero). -/
theorem C4_telegram_config_nonfatal (secret token chat : String) (b : Bool)
    (hsec : secret ≠ "") :
    (∀ msg, startup secret token chat b ≠ .fatalExit msg) ∧
    (∀ msg, startup secret token chat b = .panicked msg → b = false) ∧
    (b = true →
      ∃ logs, startup secret token chat b = .serving (goParseInt64 chat) logs ∧
        (token = "" → "Telegram token not set" ∈ logs) ∧
        (chat = "" → "Telegram Chat ID not set" ∈ logs)) := by
  refine ⟨?_, ?_, ?_⟩
  · intro msg; cases b <;> simp [startup, hsec]
  · intro msg; cases b <;> simp [startup, hsec]
  · intro hb; subst hb
    refine ⟨(if token = "" then ["Telegram token not set"] else []) ++
        (if chat = "" then ["Telegram Chat ID not set"] else []), ?_, ?_, ?_⟩
    · simp [startup, hsec]
    · intro h; simp [h]
    · intro h; simp [h]

/-- C4 (witness): with a non-empty secret, empty Telegram token and chat id,
and a successful bot initialisation, startup serves (chat id zero) and does
not exit fatally. -/
theorem C4_telegram_config_nonfatal_witness :
    startup "s3cret" "" "" true ≠ .fatalExit "Github webhook secret not set" ∧
    startup "s3cret" "" "" true =
      .serving 0 ["Telegram token not set", "Telegram Chat ID not set"] :=
  ⟨(C4_telegram_config_nonfatal "s3cret" "" "" true (by decide)).1
      "Github webhook secret not set",
   by decide⟩

/-- C5: for every request, when the inbound `X-Request-Id` header is empty
(or absent, which Go reads as empty) the response carries a freshly generated
non-empty id (the decimal nanosecond timestamp) which is also the context
request id; when the header is non-empty, exactly that value is echoed on the
response and stored in the context for downstream handlers and the logger. -/
theorem C5_tracing_request_id (hdr : String) (nano : Int) :
    (hdr = "" → (tracing hdr nano).responseRequestId = toString nano ∧
      (tracing hdr nano).responseRequestId ≠ "" ∧
      (tracing hdr nano).ctxRequestId = (tracing hdr nano).responseRequestId) ∧
    (hdr ≠ "" → (tracing hdr nano).responseRequestId = hdr ∧
      (tracing hdr nano).ctxRequestId = hdr) := by
  constructor
  · intro h
    refine ⟨by simp [tracing, tracingRequestID, h], ?_, rfl⟩
    simp only [tracing, tracingRequestID, h, if_pos]
    exact intToString_ne_empty nano
  · intro h
    exact ⟨by simp [tracing, tracingRequestID, h], by simp [tracing, tracingRequestID, h]⟩

/-- C5 (witness): the statement instantiated at an absent header with a
concrete timestamp, and at the concrete header `req-7`. -/
theorem C5_tracing_request_id_witness :
    (tracing "" 1700000000000000000).responseRequestId ≠ "" ∧
    (tracing "req-7" 5).responseRequestId = "req-7" ∧
    (tracing "req-7" 5).ctxRequestId = "req-7" :=
  ⟨((C5_tracing_request_id "" 1700000000000000000).1 rfl).2.1,
   ((C5_tracing_request_id "req-7" 5).2 (by decide)).1,
   ((C5_tracing_request_id "req-7" 5).2 (by decide)).2⟩

/-- C6 (counterexample): a request whose downstream handler takes 1.5ms
(1500000 ns) — which is ≥1ms and <2ms — is recorded with latency 2, not 1:
the code takes the ceiling of elapsed nanoseconds over one million. -/
theorem C6_counterexample :
    latencyMillis 1500000 = 2 ∧ latencyMillis 1500000 ≠ 1 := by
  decide

/-- C6 (amended): the recorded latency is the ceiling of elapsed nanoseconds
over one million: it is 1 (not 0) exactly for durations in (0ns, 1ms], it is
2 for durations in (1ms, 2ms), and it is never 0 for a positive duration. -/
theorem C6_latency_ceiling (ns : Nat) :
    (0 < ns → ns ≤ 1000000 → latencyMillis ns = 1) ∧
    (1000000 < ns → ns < 2000000 → latencyMillis ns = 2) ∧
    (0 < ns → latencyMillis ns ≠ 0) := by
  unfold latencyMillis
  refine ⟨?_, ?_, ?_⟩ <;> intros <;> omega

/-- C6 (witness): the amended statement instantiated at 1ms and at
1999999 ns. -/
theorem C6_latency_ceiling_witness :
    latencyMillis 1000000 = 1 ∧ latencyMillis 1999999 = 2 :=
  ⟨(C6_latency_ceiling 1000000).1 (by decide) (by decide),
   (C6_latency_ceiling 1999999).2.1 (by decide) (by decide)⟩

/-- Characterization of the parse-time crash: `hook.Parse` panics exactly
when the request reaches the signature check (POST, `watch` event, non-empty
body, non-empty secret) with an `X-Hub-Signature` header of length 1-4. -/
theorem hookParse_crashed_iff
    (mac : String → String → String) (unmarshal : String → Option WatchPayload)
    (secret : String) (r : HookRequest) :
    hookParse mac unmarshal secret r = ParseOutcome.crashed ↔
      (r.method = "POST" ∧ r.eventHeader = "watch" ∧ r.body.length ≠ 0 ∧
       0 < secret.length ∧ r.sigHeader.length ≠ 0 ∧ r.sigHeader.length < 5) := by
  unfold hookParse
  split_ifs with h1 h2 h3 h4 h5 h6 h7
  · simp [h1]
  · simp [h2]
  · simp
    intro hm he
    exact absurd he h3
  · simp
    intro hm he hb
    exact absurd h4 hb
  · simp
    intro hm he hb hsec hne
    exact absurd h5.2 hne
  · simp
    exact ⟨not_not.mp h1, not_not.mp h3, h4, h6.1,
      fun h0 => h5 ⟨h6.1, h0⟩, h6.2⟩
  · simp
    intro hm he hb hsec hne
    exact Nat.le_of_not_lt (fun hl => h6 ⟨hsec, hl⟩)
  · cases hu : unmarshal r.body <;> simp <;>
      intro hm he hb hsec hne <;>
      exact Nat.le_of_not_lt (fun hl => h6 ⟨hsec, hl⟩)

/-- The handler produces no response exactly when parsing crashes. -/
theorem webhookHandler_none_iff
    (mac : String → String → String) (unmarshal : String → Option WatchPayload)
    (secret : String) (chatID : Int) (r : HookRequest) :
    webhookHandler mac unmarshal secret chatID r = none ↔
      hookParse mac unmarshal secret r = ParseOutcome.crashed := by
  unfold webhookHandler
  cases hp : hookParse mac unmarshal secret r with
  | crashed => simp
  | result p e => cases p <;> simp

/-- Every response the handler does produce has status 200. -/
theorem webhookHandler_status_200
    (mac : String → String → String) (unmarshal : String → Option WatchPayload)
    (secret : String) (chatID : Int) (r : HookRequest) (res : HandlerResult)
    (h : webhookHandler mac unmarshal secret chatID r = some res) :
    res.status = 200 := by
  unfold webhookHandler at h
  cases hp : hookParse mac unmarshal secret r with
  | crashed => rw [hp] at h; simp at h
  | result p e =>
    rw [hp] at h
    cases p <;> (injection h with h; rw [← h])

/-- C7 (counterexample): a POST `/webhook` request with the 3-character
signature header `abc` (`shortSigReq`) gets no HTTP response at all — the
library's `signature[5:]` slice panics, the handler crashes, and the
connection is closed without a status — so not every POST `/webhook` request
is answered with status 200. -/
theorem C7_counterexample :
    webhookHandler macConst unmarshalStar "s3cret" 99 shortSigReq = none := by
  decide

/-- C7 (amended): every response the `/webhook` handler produces has status
200 — the handler never calls `WriteHeader`, whatever the validation or send
outcome — but it does not always produce one: it crashes with no response
exactly for requests that reach the signature check (POST, `watch` event,
non-empty body, non-empty secret) carrying an `X-Hub-Signature` header of
length 1-4. -/
theorem C7_webhook_200_when_responding
    (mac : String → String → String) (unmarshal : String → Option WatchPayload)
    (secret : String) (chatID : Int) (r : HookRequest) :
    (∀ res, webhookHandler mac unmarshal secret chatID r = some res →
      res.status = 200) ∧
    (webhookHandler mac unmarshal secret chatID r = none ↔
      (r.method = "POST" ∧ r.eventHeader = "watch" ∧ r.body.length ≠ 0 ∧
       0 < secret.length ∧ r.sigHeader.length ≠ 0 ∧ r.sigHeader.length < 5)) :=
  ⟨fun res h => webhookHandler_status_200 mac unmarshal secret chatID r res h,
   (webhookHandler_none_iff mac unmarshal secret chatID r).trans
     (hookParse_crashed_iff mac unmarshal secret r)⟩

/-- C7 (witness): the amended statement instantiated at the `push` request
(which completes with status 200) and at the short-signature request (which
crashes and yields no response). -/
theorem C7_webhook_200_when_responding_witness :
    ({ status := 200, body := genericAck, errorLogs := ["push"], sent := [] }
      : HandlerResult).status = 200 ∧
    webhookHandler macConst unmarshalStar "s3cret" 99 shortSigReq = none :=
  ⟨(C7_webhook_200_when_responding macConst unmarshalStar "s3cret" 99 pushReq).1
      ⟨200, genericAck, ["push"], []⟩ (by decide),
   (C7_webhook_200_when_responding macConst unmarshalStar "s3cret" 99 shortSigReq).2.mpr
      ⟨rfl, rfl, by decide, by decide, by decide, by decide⟩⟩

/-- C8: the client address recorded by the access logger is the `X-Real-Ip`
header value when non-empty, otherwise the `X-Forwarded-For` header value
when non-empty, otherwise the raw connection remote address. -/
theorem C8_client_ip_precedence (xri xff remote : String) :
    (xri ≠ "" → clientIP xri xff remote = xri) ∧
    (xri = "" → xff ≠ "" → clientIP xri xff remote = xff) ∧
    (xri = "" → xff = "" → clientIP xri xff remote = remote) := by
  refine ⟨?_, ?_, ?_⟩ <;> intros <;> simp [clientIP, *]

/-- C8 (witness): the three precedence cases at concrete header values. -/
theorem C8_client_ip_precedence_witness :
    clientIP "1.2.3.4" "5.6.7.8" "10.0.0.1:5555" = "1.2.3.4" ∧
    clientIP "" "5.6.7.8" "10.0.0.1:5555" = "5.6.7.8" ∧
    clientIP "" "" "10.0.0.1:5555" = "10.0.0.1:5555" :=
  ⟨(C8_client_ip_precedence "1.2.3.4" "5.6.7.8" "10.0.0.1:5555").1 (by decide),
   (C8_client_ip_precedence "" "5.6.7.8" "10.0.0.1:5555").2.1 rfl (by decide),
   (C8_client_ip_precedence "" "" "10.0.0.1:5555").2.2 rfl rfl⟩

/-- C9: when `GITHUB_SECRET` is empty at process start the process exits
fatally (before serving any request); when it is non-empty, startup proceeds
past the secret check and never reaches the fatal exit. -/
theorem C9_secret_required (secret token chat : String) (b : Bool) :
    (secret = "" →
      startup secret token chat b = .fatalExit "Github webhook secret not set") ∧
    (secret ≠ "" → ∀ msg, startup secret token chat b ≠ .fatalExit msg) := by
  constructor
  · intro h; simp [startup, h]
  · intro h msg; cases b <;> simp [startup, h]

/-- C9 (witness): the statement instantiated at an empty and at a non-empty
secret. -/
theorem C9_secret_required_witness :
    startup "" "tok" "5" true = .fatalExit "Github webhook secret not set" ∧
    startup "s3cret" "tok" "5" true ≠ .fatalExit "Github webhook secret not set" :=
  ⟨(C9_secret_required "" "tok" "5" true).1 rfl,
   (C9_secret_required "s3cret" "tok" "5" true).2 (by decide)
     "Github webhook secret not set"⟩

/-- C10: for every POST `/webhook` request that completes (produces a
response), the response body ends with the generic acknowledgment
`Event received. Have a nice day`: the handler writes it unconditionally
after the event-type switch, also on the watch path where `OK` was already
written. -/
theorem C10_body_ends_with_generic_ack
    (mac : String → String → String) (unmarshal : String → Option WatchPayload)
    (secret : String) (chatID : Int) (r : HookRequest) (res : HandlerResult)
    (h : webhookHandler mac unmarshal secret chatID r = some res) :
    ∃ pre, res.body = pre ++ genericAck := by
  unfold webhookHandler at h
  cases hp : hookParse mac unmarshal secret r with
  | crashed => rw [hp] at h; simp at h
  | result p e =>
    rw [hp] at h
    cases p with
    | some pl =>
      injection h with h
      exact ⟨"OK", by rw [← h]⟩
    | none =>
      injection h with h
      exact ⟨"", by rw [← h]; rw [String.empty_append]⟩

/-- C10 (witness): the statement instantiated at the completing `push`
request, whose response body is exactly the generic acknowledgment. -/
theorem C10_body_ends_with_generic_ack_witness :
    ∃ pre, ({ status := 200, body := genericAck, errorLogs := ["push"], sent := [] }
      : HandlerResult).body = pre ++ genericAck :=
  C10_body_ends_with_generic_ack macConst unmarshalStar "s3cret" 99 pushReq
    ⟨200, genericAck, ["push"], []⟩ (by decide)

end Star
